import Mathlib

/-!
Verification of the browser-utils geometry library: the rectangle
measurement layer (`offsets`, `scaleRect`, `scaledBoundingClientRect`
from `element.ts`) and the popup placement engine (`popup` and the
`style` applier).  DOM geometry reads are modelled as explicit record
inputs; JavaScript numbers are modelled as rationals and
`Math.round` as `jsRound`.
-/

namespace BrowserUtils

/-- Model of JavaScript `Math.round`: rounds half-way cases toward
positive infinity, so `Math.round x = ⌊x + 1/2⌋`. -/
def jsRound (q : ℚ) : ℤ := ⌊q + 1 / 2⌋

/-- Model of the viewport (`window.innerWidth` / `window.innerHeight`). -/
structure Viewport where
  innerWidth : ℚ
  innerHeight : ℚ
deriving DecidableEq

/-- A raw `DOMRect` as returned by `getBoundingClientRect`, before scaling. -/
structure RawRect where
  left : ℚ
  top : ℚ
  right : ℚ
  bottom : ℚ
  width : ℚ
  height : ℚ
  x : ℚ
  y : ℚ
deriving DecidableEq

/-- A `DOMRect` is geometrically well formed when its right/bottom edges
agree with origin plus size (true of every rect the browser reports). -/
def RawRect.wf (r : RawRect) : Prop :=
  r.right = r.left + r.width ∧ r.bottom = r.top + r.height

instance (r : RawRect) : Decidable r.wf := by
  unfold RawRect.wf
  infer_instance

/-- A DOM element viewed as measurement reference: its raw bounding rect
and whether it exposes `getBoundingClientRect` as a function. -/
structure GeomElem where
  rect : RawRect
  boundable : Bool := true
deriving DecidableEq

/-- A DOM element as the source sees it: raw bounding rect, whether
`getBoundingClientRect` is a function, its current class list, and its
`parentElement` (possibly null). -/
structure Elem where
  rect : RawRect
  boundable : Bool := true
  classes : List String := []
  parent : Option GeomElem := none
deriving DecidableEq

/-- The `ScaledDOMRect` type of `element.ts`: every field of the raw rect
divided by the scale and rounded. -/
structure ScaledDOMRect where
  left : ℤ
  top : ℤ
  right : ℤ
  bottom : ℤ
  width : ℤ
  height : ℤ
  x : ℤ
  y : ℤ
deriving DecidableEq

/-- The `OffsetRect` type of `element.ts`. -/
structure OffsetRect where
  left : ℤ
  top : ℤ
  right : ℤ
  bottom : ℤ
  width : ℤ
  height : ℤ
deriving DecidableEq

/-- Embedding of `scaleRect` (element.ts lines 81-93): every field of the
rect is divided by `scale` and rounded. -/
def scaleRect (rect : RawRect) (scale : ℚ) : ScaledDOMRect :=
  { left := jsRound (rect.left / scale)
    top := jsRound (rect.top / scale)
    right := jsRound (rect.right / scale)
    bottom := jsRound (rect.bottom / scale)
    width := jsRound (rect.width / scale)
    height := jsRound (rect.height / scale)
    x := jsRound (rect.x / scale)
    y := jsRound (rect.y / scale) }

/-- Embedding of `scaledBoundingClientRect` (element.ts lines 60-62): the
DOM read `element.getBoundingClientRect()` becomes the `rect` field. -/
def scaledBoundingClientRect (e : Elem) (scale : ℚ) : ScaledDOMRect :=
  scaleRect e.rect scale

/-- The `relativeTo` argument of `offsets`: absent (or null, both falsy),
a boolean, or an element. -/
inductive RelRef
  | noRef
  | asBool (b : Bool)
  | asElem (g : GeomElem)
deriving DecidableEq

/-- JavaScript truthiness of the `relativeTo` argument: `undefined`/`null`
are falsy, booleans are their own truth value, an element object is truthy. -/
def RelRef.truthy : RelRef → Bool
  | .noRef => false
  | .asBool b => b
  | .asElem _ => true

/-- Resolution of the measurement reference (element.ts lines 26-28): a
boolean resolves to the element's `parentElement`, an element resolves
to itself. -/
def resolveRef (e : Elem) : RelRef → Option GeomElem
  | .noRef => none
  | .asBool _ => e.parent
  | .asElem g => some g

/-- The message of the error thrown by `offsets` (element.ts line 41); the
spec names this failure `InvalidReferenceError`. -/
def invalidRefMsg : String :=
  "Invalid relativeTo argument. Must be boolean or HTML Element!"

/-- The viewport branch of `offsets` (element.ts lines 43-51): `left`,
`top`, `width`, `height` come from the scaled bounding rect; `right` and
`bottom` subtract the scaled rounded edge from the scale-divided viewport
dimension and round the difference. -/
def viewportOffsets (vp : Viewport) (e : Elem) (scale : ℚ) : OffsetRect :=
  let s := scaleRect e.rect scale
  { width := s.width
    height := s.height
    left := s.left
    top := s.top
    right := jsRound (vp.innerWidth / scale - (s.right : ℚ))
    bottom := jsRound (vp.innerHeight / scale - (s.bottom : ℚ)) }

/-- Embedding of `offsets` (element.ts lines 24-52).  A truthy
`relativeTo` is resolved to a reference element; if the reference is
missing or does not expose `getBoundingClientRect`, the thrown error is
modelled as `Except.error`.  A falsy `relativeTo` measures against the
viewport. -/
def offsets (vp : Viewport) (e : Elem) (relativeTo : RelRef) (scale : ℚ) :
    Except String OffsetRect :=
  if relativeTo.truthy then
    match resolveRef e relativeTo with
    | some relation =>
      if relation.boundable then
        let es := scaleRect e.rect scale
        let rs := scaleRect relation.rect scale
        let left := jsRound ((es.left : ℚ) - (rs.left : ℚ))
        let top := jsRound ((es.top : ℚ) - (rs.top : ℚ))
        let right := jsRound ((rs.width : ℚ) - ((left + es.width : ℤ) : ℚ))
        let bottom := jsRound ((rs.height : ℚ) - ((top + es.height : ℤ) : ℚ))
        Except.ok
          { width := es.width, height := es.height
            left := left, top := top, right := right, bottom := bottom }
      else
        Except.error invalidRefMsg
    | none => Except.error invalidRefMsg
  else
    Except.ok (viewportOffsets vp e scale)

/-- Modelled from the spec: the rectangle module imported by `popup`
(`./rectangle`, absent from the sources) returns the viewport offsets of
element.ts extended with the anchor's center coordinates; per the spec's
placement table and test vectors, `centerX`/`centerY` are the anchor's
center point in scaled viewport coordinates. -/
structure OffsetRectC where
  left : ℤ
  top : ℤ
  right : ℤ
  bottom : ℤ
  width : ℤ
  height : ℤ
  centerX : ℚ
  centerY : ℚ
deriving DecidableEq

/-- Modelled from the spec: the `offsets` of the missing `./rectangle`
module, as called by `popup` with a falsy `relativeTo` — the viewport
branch of element.ts's `offsets`, plus the anchor center
(`centerX = left + width/2`, `centerY = top + height/2`). -/
def offsetsCenter (vp : Viewport) (e : Elem) (scale : ℚ) : OffsetRectC :=
  let base := viewportOffsets vp e scale
  { left := base.left
    top := base.top
    right := base.right
    bottom := base.bottom
    width := base.width
    height := base.height
    centerX := (base.left : ℚ) + (base.width : ℚ) / 2
    centerY := (base.top : ℚ) + (base.height : ℚ) / 2 }

/-- A CSS length value written into the style patch by `popup`: either an
interpolated pixel value (the string `"<v>px"`) or the literal string
`"0"`. -/
inductive CssVal
  | px (v : ℚ)
  | raw0
deriving DecidableEq

/-- A component of the `translate3d` transform produced by `popup`: the
string `"0"` or the string `"-50%"`. -/
inductive TransVal
  | t0
  | neg50
deriving DecidableEq

/-- The horizontal direction enum `DirectionX` of the source. -/
inductive DirectionX
  | before
  | after
  | between
  | left
  | right
deriving DecidableEq

/-- The vertical direction enum `DirectionY` of the source. -/
inductive DirectionY
  | above
  | below
  | between
  | top
  | bottom
deriving DecidableEq

/-- The horizontal style properties written by the `xDir` branch of
`popup` (part_000 lines 76-133): a field is `none` when the branch does
not set that property. -/
structure XStyles where
  left : Option CssVal := none
  right : Option CssVal := none
  marginLeft : Option CssVal := none
  marginRight : Option CssVal := none
  maxWidth : Option CssVal := none
deriving DecidableEq

/-- The vertical style properties written by the `yDir` branch of
`popup` (part_000 lines 135-193). -/
structure YStyles where
  top : Option CssVal := none
  bottom : Option CssVal := none
  marginTop : Option CssVal := none
  marginBottom : Option CssVal := none
  maxHeight : Option CssVal := none
deriving DecidableEq

/-- The full style patch `popup` hands to the style applier. -/
structure StylePatch where
  left : Option CssVal := none
  right : Option CssVal := none
  marginLeft : Option CssVal := none
  marginRight : Option CssVal := none
  maxWidth : Option CssVal := none
  top : Option CssVal := none
  bottom : Option CssVal := none
  marginTop : Option CssVal := none
  marginBottom : Option CssVal := none
  maxHeight : Option CssVal := none
  transform : Option (TransVal × TransVal) := none
deriving DecidableEq

/-- Semantics of `element.classList.add`: appends the class unless it is
already present. -/
def classListAdd (cs : List String) (c : String) : List String :=
  if c ∈ cs then cs else cs ++ [c]

/-- The horizontal decision procedure of `popup` (part_000 lines 76-133):
given the viewport, the anchor offsets `r`, the element's scaled width,
the direction, the swap flag and the space, returns the style properties
written, the horizontal translation component `tx`, and the classes added
(in execution order). -/
def popupX (vp : Viewport) (r : OffsetRectC) (elWidth : ℤ)
    (xDir : DirectionX) (swap : Bool) (space : ℚ) :
    XStyles × TransVal × List String :=
  match xDir with
  | .before =>
    if r.right + elWidth < 0 then
      let s : XStyles :=
        if swap then { left := some (.px ((r.left + r.width : ℤ) : ℚ)) }
        else { left := some .raw0 }
      ({ s with marginLeft := some (.px space) }, .t0, ["x-after"])
    else
      ({ right := some (.px ((r.right + r.width : ℤ) : ℚ))
         marginRight := some (.px space) }, .t0, ["x-before"])
  | .after =>
    if ((r.left + elWidth : ℤ) : ℚ) > vp.innerWidth then
      let s : XStyles :=
        if swap then { right := some (.px ((r.right + r.width : ℤ) : ℚ)) }
        else { right := some .raw0 }
      ({ s with marginRight := some (.px space) }, .t0, ["x-before"])
    else
      ({ left := some (.px ((r.left + r.width : ℤ) : ℚ))
         marginLeft := some (.px space) }, .t0, ["x-after"])
  | .between =>
    if r.centerX - (elWidth : ℚ) / 2 < 0 then
      ({ left := some (.px space)
         maxWidth := some (.px (vp.innerWidth - space * 2)) }, .t0,
       ["x-screen-left"])
    else if r.centerX + (elWidth : ℚ) / 2 > vp.innerWidth then
      ({ right := some (.px space)
         maxWidth := some (.px (vp.innerWidth - space * 2)) }, .t0,
       ["x-screen-right"])
    else
      ({ left := some (.px r.centerX) }, .neg50, ["x-between"])
  | .left => ({ left := some (.px (r.left : ℚ)) }, .t0, ["x-left"])
  | .right => ({ right := some (.px (r.right : ℚ)) }, .t0, ["x-right"])

/-- The vertical decision procedure of `popup` (part_000 lines 135-193).
Note the `below` overflow branch: with swap the class "y-below" is added
inside the swap arm and "y-above" is added unconditionally afterwards. -/
def popupY (vp : Viewport) (r : OffsetRectC) (elHeight : ℤ)
    (yDir : DirectionY) (swap : Bool) (space : ℚ) :
    YStyles × TransVal × List String :=
  match yDir with
  | .above =>
    if r.bottom + elHeight < 0 then
      let s : YStyles :=
        if swap then { top := some (.px ((r.top + r.height : ℤ) : ℚ)) }
        else { top := some .raw0 }
      ({ s with marginTop := some (.px space) }, .t0, ["y-below"])
    else
      ({ bottom := some (.px ((r.bottom + r.height : ℤ) : ℚ))
         marginBottom := some (.px space) }, .t0, ["y-above"])
  | .below =>
    if ((r.top + elHeight : ℤ) : ℚ) > vp.innerHeight then
      let sc : YStyles × List String :=
        if swap then
          ({ bottom := some (.px ((r.bottom + r.height : ℤ) : ℚ)) }, ["y-below"])
        else ({ bottom := some .raw0 }, [])
      ({ sc.1 with marginBottom := some (.px space) }, .t0, sc.2 ++ ["y-above"])
    else
      ({ top := some (.px ((r.top + r.height : ℤ) : ℚ))
         marginTop := some (.px space) }, .t0, ["y-below"])
  | .between =>
    if r.centerY - (elHeight : ℚ) / 2 < 0 then
      ({ top := some (.px space)
         maxHeight := some (.px (vp.innerHeight - space * 2)) }, .t0,
       ["y-screen-top"])
    else if r.centerY + (elHeight : ℚ) / 2 > vp.innerHeight then
      ({ bottom := some (.px space)
         maxHeight := some (.px (vp.innerHeight - space * 2)) }, .t0,
       ["y-screen-bottom"])
    else
      ({ top := some (.px r.centerY) }, .neg50, ["y-between"])
  | .top => ({ top := some (.px (r.top : ℚ)) }, .t0, ["y-top"])
  | .bottom => ({ bottom := some (.px (r.bottom : ℚ)) }, .t0, ["y-bottom"])

/-- The `PopupOptions` record of the source, defaults as in the
destructuring at part_000 lines 48-56. -/
structure PopupOptions where
  element : Option Elem
  parent : Option Elem
  xDir : DirectionX := .between
  yDir : DirectionY := .below
  scale : ℚ := 1
  swap : Bool := true
  space : ℚ := 8
deriving DecidableEq

/-- The observable result of a `popup` call on a present element: the
style patch handed to the style applier and the element's final class
list. -/
structure PopupResult where
  patch : StylePatch
  classes : List String
deriving DecidableEq

/-- Outcome of a `popup` call: either the early-return path that logs a
console warning and mutates nothing, or the applied patch and classes. -/
inductive PopupOutcome
  | warned
  | applied (r : PopupResult)
deriving DecidableEq

/-- The style patch of an outcome (empty when the call warned). -/
def PopupOutcome.patchOf : PopupOutcome → StylePatch
  | .warned => {}
  | .applied r => r.patch

/-- The element's class list after the call (empty when the call warned). -/
def PopupOutcome.classesOf : PopupOutcome → List String
  | .warned => []
  | .applied r => r.classes

/-- Embedding of `popup` (part_000 lines 47-197).  A missing element or
parent takes the warning early return.  Otherwise the element's scaled
box and the anchor's viewport offsets are measured, the two independent
axis procedures run, and the final patch carries the combined
`translate3d(tx, ty, 0)` transform; classes are added to the element's
class list in execution order (horizontal branch first). -/
def popup (vp : Viewport) (o : PopupOptions) : PopupOutcome :=
  match o.element, o.parent with
  | some element, some parent =>
    let el := scaledBoundingClientRect element o.scale
    let r := offsetsCenter vp parent o.scale
    let x := popupX vp r el.width o.xDir o.swap o.space
    let y := popupY vp r el.height o.yDir o.swap o.space
    let patch : StylePatch :=
      { left := x.1.left, right := x.1.right
        marginLeft := x.1.marginLeft, marginRight := x.1.marginRight
        maxWidth := x.1.maxWidth
        top := y.1.top, bottom := y.1.bottom
        marginTop := y.1.marginTop, marginBottom := y.1.marginBottom
        maxHeight := y.1.maxHeight
        transform := some (x.2.1, y.2.1) }
    .applied
      { patch := patch
        classes := (x.2.2 ++ y.2.2).foldl classListAdd element.classes }
  | _, _ => .warned

/-- A JavaScript value appearing in a style patch handed to the `style`
applier: a number (integer-valued), a string, or `undefined`. -/
inductive JsVal
  | num (n : ℤ)
  | str (s : String)
  | undef
deriving DecidableEq

/-- JavaScript truthiness of a style value. -/
def JsVal.truthy : JsVal → Bool
  | .num n => n != 0
  | .str s => s != ""
  | .undef => false

/-- JavaScript string coercion, as performed by assigning the value to a
`CSSStyleDeclaration` property. -/
def JsVal.stringify : JsVal → String
  | .num n => toString n
  | .str s => s
  | .undef => "undefined"

/-- Embedding of one iteration of the loop body of `style` (part_000
lines 12-17): `val` suffixes a positive number with "px" (a non-positive
number becomes its plain numeric string), but the assignment that
follows writes the original `value`, not `val`; `val` only guards the
write.  Returns the string written to `element.style[key]`, or `none`
when the entry is skipped. -/
def styleEntry (value : JsVal) : Option String :=
  let val : JsVal :=
    match value with
    | .num n => if n > 0 then .str (toString n ++ "px") else .str (toString n)
    | v => v
  if val.truthy then some value.stringify else none

section Lemmas

/-- Rounding an integer is the identity. -/
theorem jsRound_intCast (n : ℤ) : jsRound ((n : ℚ)) = n := by
  have h : ⌊(1 / 2 : ℚ)⌋ = 0 := by
    rw [Int.floor_eq_zero_iff]
    constructor <;> norm_num
  rw [jsRound, Int.floor_int_add, h, add_zero]

/-- Rounding commutes with subtracting an integer. -/
theorem jsRound_sub_intCast (q : ℚ) (n : ℤ) :
    jsRound (q - (n : ℚ)) = jsRound q - n := by
  have h : q - (n : ℚ) + 1 / 2 = q + 1 / 2 - (n : ℚ) := by ring
  rw [jsRound, h, Int.floor_sub_int, jsRound]

/-- Upper bound of the rounding: `round q ≤ q + 1/2`. -/
theorem jsRound_le (q : ℚ) : (jsRound q : ℚ) ≤ q + 1 / 2 :=
  Int.floor_le _

/-- Lower bound of the rounding: `q - 1/2 < round q`. -/
theorem lt_jsRound (q : ℚ) : q - 1 / 2 < (jsRound q : ℚ) := by
  have h := Int.lt_floor_add_one (q + 1 / 2)
  rw [jsRound]
  linarith

/-- Independent rounding of two summands differs from rounding the sum by
at most one. -/
theorem abs_jsRound_add_sub_jsRound (a b : ℚ) :
    |jsRound a + jsRound b - jsRound (a + b)| ≤ 1 := by
  have ha1 := jsRound_le a
  have ha2 := lt_jsRound a
  have hb1 := jsRound_le b
  have hb2 := lt_jsRound b
  have hc1 := jsRound_le (a + b)
  have hc2 := lt_jsRound (a + b)
  rw [abs_le]
  constructor
  · have h2 : ((-2 : ℤ) : ℚ) < ((jsRound a + jsRound b - jsRound (a + b) : ℤ) : ℚ) := by
      push_cast
      linarith
    have h3 : (-2 : ℤ) < jsRound a + jsRound b - jsRound (a + b) := by
      exact_mod_cast h2
    omega
  · have h2 : ((jsRound a + jsRound b - jsRound (a + b) : ℤ) : ℚ) < ((2 : ℤ) : ℚ) := by
      push_cast
      linarith
    have h3 : jsRound a + jsRound b - jsRound (a + b) < (2 : ℤ) := by
      exact_mod_cast h2
    omega

end Lemmas

section ConcreteInputs

/-- A 400 x 300 viewport used by the concrete placement scenarios. -/
def vpMain : Viewport := { innerWidth := 400, innerHeight := 300 }

/-- Anchor for the between-centering scenario: occupies x in [175, 225],
y in [50, 70], so its horizontal center is at x = 200. -/
def anchorC1 : Elem :=
  { rect := { left := 175, top := 50, right := 225, bottom := 70
              width := 50, height := 20, x := 175, y := 50 } }

/-- Popup element of width 50 and height 40. -/
def elemC1 : Elem :=
  { rect := { left := 0, top := 0, right := 50, bottom := 40
              width := 50, height := 40, x := 0, y := 0 } }

/-- Options for the between-centering scenario. -/
def optsC1 : PopupOptions :=
  { element := some elemC1, parent := some anchorC1
    xDir := .between, yDir := .below, scale := 1, swap := true, space := 8 }

/-- Anchor for the swap scenario: occupies viewport x in [0, 100], width
100, height 20. -/
def anchorC2 : Elem :=
  { rect := { left := 0, top := 0, right := 100, bottom := 20
              width := 100, height := 20, x := 0, y := 0 } }

/-- Popup element of width 150 and height 30 for the swap scenario. -/
def elemC2 : Elem :=
  { rect := { left := 0, top := 0, right := 150, bottom := 30
              width := 150, height := 30, x := 0, y := 0 } }

/-- Options for the swap scenario: `xDir = before`, swap on. -/
def optsC2 : PopupOptions :=
  { element := some elemC2, parent := some anchorC2
    xDir := .before, yDir := .below, scale := 1, swap := true, space := 8 }

/-- Anchor for the screen-edge clamp scenario: occupies x in [-15, 35],
so its horizontal center is at x = 10. -/
def anchorC3 : Elem :=
  { rect := { left := -15, top := 50, right := 35, bottom := 70
              width := 50, height := 20, x := -15, y := 50 } }

/-- Options for the screen-edge clamp scenario (element width 50 as in
the centering scenario, space 8). -/
def optsC3 : PopupOptions :=
  { element := some elemC1, parent := some anchorC3
    xDir := .between, yDir := .below, scale := 1, swap := true, space := 8 }

/-- A 101 x 99 viewport whose halves are non-integral at scale 2. -/
def vpC4 : Viewport := { innerWidth := 101, innerHeight := 99 }

/-- Element for the viewport-edge formula scenario: raw rect with left 3,
top 4, width 10, height 6 (so right 13, bottom 10), measured at scale 2. -/
def elemC4 : Elem :=
  { rect := { left := 3, top := 4, right := 13, bottom := 10
              width := 10, height := 6, x := 3, y := 4 } }

end ConcreteInputs

/-- C1: for a popup call with `xDir = between`, anchor center at x = 200,
element scaled width 50 and viewport width 400, neither center-alignment
overflow test fires, so the patch sets `left` to `200px`, the horizontal
component of the `translate3d` transform is `-50%`, and the class
`x-between` is added to the element. -/
theorem c1_between_centering :
    (popup vpMain optsC1).patchOf.left = some (CssVal.px 200) ∧
    (popup vpMain optsC1).patchOf.transform.map Prod.fst = some TransVal.neg50 ∧
    "x-between" ∈ (popup vpMain optsC1).classesOf := by
  norm_num [popup, popupX, popupY, offsetsCenter, viewportOffsets, scaleRect,
    scaledBoundingClientRect, jsRound, classListAdd, PopupOutcome.patchOf,
    PopupOutcome.classesOf, vpMain, optsC1, optsC2, optsC3, anchorC1, anchorC2,
    anchorC3, elemC1, elemC2]
  decide

/-- C2 counterexample: at the spec's swap scenario (anchor at x in
[0, 100] of width 100, element scaled width 150, viewport width 400,
`xDir = before`, swap on) the claim's expected patch does not arise: the
patch does not set `left = 100px` with `margin-left = 8px` and class
`x-after`, because the overflow test `right + elWidth < 0` is false
(300 + 150 = 450 is not negative). -/
theorem c2_counterexample :
    ¬ ((popup vpMain optsC2).patchOf.left = some (CssVal.px 100) ∧
       (popup vpMain optsC2).patchOf.marginLeft = some (CssVal.px 8) ∧
       "x-after" ∈ (popup vpMain optsC2).classesOf) := by
  norm_num [popup, popupX, popupY, offsetsCenter, viewportOffsets, scaleRect,
    scaledBoundingClientRect, jsRound, classListAdd, PopupOutcome.patchOf,
    PopupOutcome.classesOf, vpMain, optsC1, optsC2, optsC3, anchorC1, anchorC2,
    anchorC3, elemC1, elemC2]
  intro h
  simp at h

/-- C2 amended: at the swap scenario the horizontal overflow test is
false (`offSide = false`), so the no-overflow branch runs: the patch
sets `right` to `anchorRightSpace + anchorWidth = 300 + 100 = 400px`
and `margin-right = 8px`, adds the class `x-before`, does not set
`left`, and does not add `x-after`. -/
theorem c2_swap_scenario_amended :
    (popup vpMain optsC2).patchOf.right = some (CssVal.px 400) ∧
    (popup vpMain optsC2).patchOf.marginRight = some (CssVal.px 8) ∧
    "x-before" ∈ (popup vpMain optsC2).classesOf ∧
    (popup vpMain optsC2).patchOf.left = none ∧
    "x-after" ∉ (popup vpMain optsC2).classesOf := by
  norm_num [popup, popupX, popupY, offsetsCenter, viewportOffsets, scaleRect,
    scaledBoundingClientRect, jsRound, classListAdd, PopupOutcome.patchOf,
    PopupOutcome.classesOf, vpMain, optsC1, optsC2, optsC3, anchorC1, anchorC2,
    anchorC3, elemC1, elemC2]
  decide

/-- C3: for a popup call with `xDir = between`, anchor center at x = 10,
element scaled width 50, space 8 and viewport width 400, the left
center-alignment overflow test fires (10 - 25 < 0), so the patch sets
`left = 8px` and `maxWidth = 400 - 2*8 = 384px`, and the class
`x-screen-left` is added. -/
theorem c3_screen_edge_clamp :
    (popup vpMain optsC3).patchOf.left = some (CssVal.px 8) ∧
    (popup vpMain optsC3).patchOf.maxWidth = some (CssVal.px 384) ∧
    "x-screen-left" ∈ (popup vpMain optsC3).classesOf := by
  norm_num [popup, popupX, popupY, offsetsCenter, viewportOffsets, scaleRect,
    scaledBoundingClientRect, jsRound, classListAdd, PopupOutcome.patchOf,
    PopupOutcome.classesOf, vpMain, optsC1, optsC2, optsC3, anchorC1, anchorC2,
    anchorC3, elemC1, elemC2]
  decide

/-- C4 counterexample: with viewport width 101 at scale 2 and raw right
edge 13, the viewport-mode `offsets` returns `right = 44`
(`round(101/2 - round(13/2)) = round(50.5 - 7) = 44`), which differs
from the claim's formula `round(viewportWidth/scale) - rawRight =
51 - 13 = 38`; likewise `bottom = 45` differs from `50 - 10 = 40`. -/
theorem c4_counterexample :
    offsets vpC4 elemC4 RelRef.noRef 2 =
      Except.ok { width := 5, height := 3, left := 2, top := 2
                  right := 44, bottom := 45 } ∧
    ¬ (((44 : ℤ) : ℚ) = ((jsRound (vpC4.innerWidth / 2) : ℤ) : ℚ) - elemC4.rect.right) ∧
    ¬ (((45 : ℤ) : ℚ) = ((jsRound (vpC4.innerHeight / 2) : ℤ) : ℚ) - elemC4.rect.bottom) := by
  refine ⟨by norm_num [offsets, RelRef.truthy, viewportOffsets, scaleRect, jsRound, vpC4, elemC4], by norm_num [offsets, RelRef.truthy, viewportOffsets, scaleRect, jsRound, vpC4, elemC4], by norm_num [offsets, RelRef.truthy, viewportOffsets, scaleRect, jsRound, vpC4, elemC4]⟩

/-- C4 amended: in viewport mode the returned `right` equals
`round(viewportWidth/scale - scaledRight)` where `scaledRight` is the
scaled, rounded right edge produced by `scaleRect` — the subtracted edge
is the scaled rounded one (not the raw one) and the outer rounding is
applied to the whole difference (the viewport dimension itself is
divided by the scale but not rounded before the subtraction); `bottom`
is analogous. -/
theorem c4_viewport_edges_amended (vp : Viewport) (e : Elem) (scale : ℚ)
    (r : OffsetRect) (h : offsets vp e RelRef.noRef scale = Except.ok r) :
    r.right = jsRound (vp.innerWidth / scale - ((scaleRect e.rect scale).right : ℚ)) ∧
    r.bottom = jsRound (vp.innerHeight / scale - ((scaleRect e.rect scale).bottom : ℚ)) := by
  simp only [offsets, RelRef.truthy, Bool.false_eq_true, if_false,
    Except.ok.injEq, viewportOffsets] at h
  subst h
  exact ⟨rfl, rfl⟩

/-- C4 amended witness: the amended formulas evaluated at the concrete
scenario of the counterexample. -/
theorem c4_viewport_edges_amended_witness :
    (44 : ℤ) = jsRound (vpC4.innerWidth / 2 - ((scaleRect elemC4.rect 2).right : ℚ)) ∧
    (45 : ℤ) = jsRound (vpC4.innerHeight / 2 - ((scaleRect elemC4.rect 2).bottom : ℚ)) :=
  c4_viewport_edges_amended vpC4 elemC4 2
    { width := 5, height := 3, left := 2, top := 2, right := 44, bottom := 45 }
    (by norm_num [offsets, RelRef.truthy, viewportOffsets, scaleRect, jsRound, vpC4, elemC4])

/-- Rounding a difference of integers is exact. -/
theorem jsRound_intCast_sub_intCast (a b : ℤ) :
    jsRound ((a : ℚ) - (b : ℚ)) = a - b := by
  have h : ((a : ℚ) - (b : ℚ)) = (((a - b : ℤ)) : ℚ) := by push_cast; ring
  rw [h, jsRound_intCast]

/-- The width of the measurement reference in scaled rounded pixels: the
relative branch measures against the resolved reference's scaled width,
the viewport branch against the scale-divided rounded viewport width. -/
def refWidth (vp : Viewport) (e : Elem) (relativeTo : RelRef) (scale : ℚ) : ℤ :=
  if relativeTo.truthy then
    match resolveRef e relativeTo with
    | some g => (scaleRect g.rect scale).width
    | none => 0
  else jsRound (vp.innerWidth / scale)

/-- The height of the measurement reference in scaled rounded pixels. -/
def refHeight (vp : Viewport) (e : Elem) (relativeTo : RelRef) (scale : ℚ) : ℤ :=
  if relativeTo.truthy then
    match resolveRef e relativeTo with
    | some g => (scaleRect g.rect scale).height
    | none => 0
  else jsRound (vp.innerHeight / scale)

/-- C5: every OffsetRect produced by `offsets` (relative or viewport
mode, any scale > 0, well-formed element rect) satisfies the rect
invariant: `left + width + right` equals the reference width and
`top + height + bottom` equals the reference height, within 1 due to the
independent rounding of the components (the relative branch is exact,
the viewport branch can be off by one). -/
theorem c5_rect_invariant (vp : Viewport) (e : Elem) (relativeTo : RelRef)
    (scale : ℚ) (r : OffsetRect) (hwf : e.rect.wf) (_hs : 0 < scale)
    (h : offsets vp e relativeTo scale = Except.ok r) :
    |r.left + r.width + r.right - refWidth vp e relativeTo scale| ≤ 1 ∧
    |r.top + r.height + r.bottom - refHeight vp e relativeTo scale| ≤ 1 := by
  cases ht : relativeTo.truthy with
  | false =>
    simp only [offsets, ht, Bool.false_eq_true, if_false, Except.ok.injEq,
      viewportOffsets, scaleRect] at h
    subst h
    rw [refWidth, refHeight, ht]
    simp only [Bool.false_eq_true, if_false, jsRound_sub_intCast]
    constructor
    · have hkey := abs_jsRound_add_sub_jsRound (e.rect.left / scale) (e.rect.width / scale)
      rw [div_add_div_same, ← hwf.1] at hkey
      have harr : jsRound (e.rect.left / scale) + jsRound (e.rect.width / scale) +
          (jsRound (vp.innerWidth / scale) - jsRound (e.rect.right / scale)) -
          jsRound (vp.innerWidth / scale) =
          jsRound (e.rect.left / scale) + jsRound (e.rect.width / scale) -
          jsRound (e.rect.right / scale) := by ring
      rw [harr]
      exact hkey
    · have hkey := abs_jsRound_add_sub_jsRound (e.rect.top / scale) (e.rect.height / scale)
      rw [div_add_div_same, ← hwf.2] at hkey
      have harr : jsRound (e.rect.top / scale) + jsRound (e.rect.height / scale) +
          (jsRound (vp.innerHeight / scale) - jsRound (e.rect.bottom / scale)) -
          jsRound (vp.innerHeight / scale) =
          jsRound (e.rect.top / scale) + jsRound (e.rect.height / scale) -
          jsRound (e.rect.bottom / scale) := by ring
      rw [harr]
      exact hkey
  | true =>
    cases hres : resolveRef e relativeTo with
    | none => simp [offsets, ht, hres] at h
    | some g =>
      cases hb : g.boundable with
      | false => simp [offsets, ht, hres, hb] at h
      | true =>
        simp only [offsets, ht, if_true, hres, hb, Except.ok.injEq] at h
        subst h
        rw [refWidth, refHeight, ht]
        simp only [if_true, hres, jsRound_intCast_sub_intCast]
        constructor <;>
        · rw [abs_le]
          omega

/-- C5 witness: the rect invariant evaluated at the concrete viewport
scenario (viewport 101 x 99, element rect 3,4,10,6 at scale 2). -/
theorem c5_rect_invariant_witness :
    |(2 : ℤ) + 5 + 44 - refWidth vpC4 elemC4 RelRef.noRef 2| ≤ 1 ∧
    |(2 : ℤ) + 3 + 45 - refHeight vpC4 elemC4 RelRef.noRef 2| ≤ 1 :=
  c5_rect_invariant vpC4 elemC4 RelRef.noRef 2
    { width := 5, height := 3, left := 2, top := 2, right := 44, bottom := 45 }
    (by norm_num [RawRect.wf, elemC4]) (by norm_num)
    (by norm_num [offsets, RelRef.truthy, viewportOffsets, scaleRect, jsRound,
      vpC4, elemC4])

/-- C8: a popup call whose element or parent is missing takes the
soft-fail early return: it logs a warning and mutates nothing (the
outcome carries no style patch and no class change), without throwing. -/
theorem c8_missing_target_noop (vp : Viewport) (o : PopupOptions)
    (h : o.element = none ∨ o.parent = none) :
    popup vp o = PopupOutcome.warned := by
  rcases h with h | h
  · simp [popup, h]
  · cases he : o.element <;> simp [popup, h, he]

/-- Options with a missing element, for the soft-fail scenario. -/
def optsC8 : PopupOptions := { element := none, parent := some anchorC1 }

/-- C8 witness: the soft-fail no-op evaluated at options with a missing
element. -/
theorem c8_missing_target_noop_witness :
    (optsC8.element = none ∨ optsC8.parent = none) ∧
    popup vpMain optsC8 = PopupOutcome.warned :=
  ⟨Or.inl rfl, c8_missing_target_noop vpMain optsC8 (Or.inl rfl)⟩

/-- C9: when `relativeTo` is truthy but the resolved reference (the
element's parent for boolean `true`, the reference element itself
otherwise) is missing or does not expose a bounding-box query, `offsets`
fails with the invalid-reference error, which propagates to the caller
(the `Except.error` result carries no partial rectangle). -/
theorem c9_invalid_reference (vp : Viewport) (e : Elem) (relativeTo : RelRef)
    (scale : ℚ) (ht : relativeTo.truthy = true)
    (hr : resolveRef e relativeTo = none ∨
      ∃ g, resolveRef e relativeTo = some g ∧ g.boundable = false) :
    offsets vp e relativeTo scale = Except.error invalidRefMsg := by
  rcases hr with hr | ⟨g, hg, hb⟩
  · simp [offsets, ht, hr]
  · simp [offsets, ht, hg, hb]

/-- C9 witness: measuring relative to the parent (`relativeTo = true`)
of an element that has no parent raises the invalid-reference error. -/
theorem c9_invalid_reference_witness :
    RelRef.truthy (RelRef.asBool true) = true ∧
    offsets vpMain elemC1 (RelRef.asBool true) 1 = Except.error invalidRefMsg :=
  ⟨rfl, c9_invalid_reference vpMain elemC1 (RelRef.asBool true) 1 rfl (Or.inl rfl)⟩

/-- C7: evaluation of the style applier at a positive numeric value
shows the pixel-suffix slip: the loop computes the suffixed string
`"5px"` into `val` but the assignment writes the raw `value`, so the
string written is `"5"`, not `"5px"` as the spec requires. -/
theorem c7_px_suffix_dropped :
    styleEntry (JsVal.num 5) = some ("5") ∧
    styleEntry (JsVal.num 5) ≠ some ("5px") := by
  refine ⟨by decide, by decide⟩

/-- The horizontal procedure sets exactly one of left/right and at most
one horizontal margin. -/
theorem popupX_exclusive (vp : Viewport) (r : OffsetRectC) (w : ℤ)
    (d : DirectionX) (swap : Bool) (space : ℚ) :
    ((popupX vp r w d swap space).1.left.isSome =
      !(popupX vp r w d swap space).1.right.isSome) ∧
    ((popupX vp r w d swap space).1.marginLeft = none ∨
      (popupX vp r w d swap space).1.marginRight = none) := by
  cases d <;> simp only [popupX] <;> first | (split_ifs <;> simp) | simp

/-- The vertical procedure sets exactly one of top/bottom and at most
one vertical margin. -/
theorem popupY_exclusive (vp : Viewport) (r : OffsetRectC) (h : ℤ)
    (d : DirectionY) (swap : Bool) (space : ℚ) :
    ((popupY vp r h d swap space).1.top.isSome =
      !(popupY vp r h d swap space).1.bottom.isSome) ∧
    ((popupY vp r h d swap space).1.marginTop = none ∨
      (popupY vp r h d swap space).1.marginBottom = none) := by
  cases d <;> simp only [popupY] <;> first | (split_ifs <;> simp) | simp

/-- C6: every popup call on a present element and parent, for any
directions, produces a patch that sets exactly one of left/right and
exactly one of top/bottom (never both on an axis), and at most one
margin property per axis (the per-axis maxWidth/maxHeight constraint is
a single record field by construction). -/
theorem c6_direction_exclusivity (vp : Viewport) (o : PopupOptions)
    (el par : Elem) (res : PopupResult)
    (hel : o.element = some el) (hpar : o.parent = some par)
    (h : popup vp o = PopupOutcome.applied res) :
    (res.patch.left.isSome = !res.patch.right.isSome) ∧
    (res.patch.top.isSome = !res.patch.bottom.isSome) ∧
    (res.patch.marginLeft = none ∨ res.patch.marginRight = none) ∧
    (res.patch.marginTop = none ∨ res.patch.marginBottom = none) := by
  simp only [popup, hel, hpar, PopupOutcome.applied.injEq] at h
  subst h
  refine ⟨(popupX_exclusive vp _ _ o.xDir o.swap o.space).1,
    (popupY_exclusive vp _ _ o.yDir o.swap o.space).1,
    (popupX_exclusive vp _ _ o.xDir o.swap o.space).2,
    (popupY_exclusive vp _ _ o.yDir o.swap o.space).2⟩

/-- The patch and classes of the between-centering scenario, as computed
by `popup`. -/
def resC6 : PopupResult :=
  { patch := { left := some (.px 200), top := some (.px 70)
               marginTop := some (.px 8)
               transform := some (.neg50, .t0) }
    classes := ["x-between", "y-below"] }

/-- C6 witness: direction exclusivity evaluated at the concrete
between-centering scenario. -/
theorem c6_direction_exclusivity_witness :
    (resC6.patch.left.isSome = !resC6.patch.right.isSome) ∧
    (resC6.patch.top.isSome = !resC6.patch.bottom.isSome) ∧
    (resC6.patch.marginLeft = none ∨ resC6.patch.marginRight = none) ∧
    (resC6.patch.marginTop = none ∨ resC6.patch.marginBottom = none) :=
  c6_direction_exclusivity vpMain optsC1 elemC1 anchorC1 resC6 rfl rfl
    (by
      norm_num [popup, popupX, popupY, offsetsCenter, viewportOffsets,
        scaleRect, scaledBoundingClientRect, jsRound, classListAdd, vpMain,
        optsC1, anchorC1, elemC1, resC6]
      all_goals decide)

/-- Membership in a class list is preserved by `classList.add`. -/
theorem mem_classListAdd_left (cs : List String) (a c : String)
    (h : c ∈ cs) : c ∈ classListAdd cs a := by
  unfold classListAdd
  split_ifs
  · exact h
  · exact List.mem_append_left _ h

/-- The class just added is a member of the result of `classList.add`. -/
theorem mem_classListAdd_self (cs : List String) (c : String) :
    c ∈ classListAdd cs c := by
  unfold classListAdd
  split_ifs with h
  · exact h
  · exact List.mem_append_right _ (List.mem_singleton.mpr rfl)

/-- Folding `classList.add` over a list of additions never removes an
existing class. -/
theorem mem_foldl_classListAdd_of_mem_init (l : List String)
    (init : List String) (c : String) (h : c ∈ init) :
    c ∈ l.foldl classListAdd init := by
  induction l generalizing init with
  | nil => exact h
  | cons a l ih =>
    rw [List.foldl_cons]
    exact ih _ (mem_classListAdd_left _ _ _ h)

/-- Every class in the addition list ends up in the folded class list. -/
theorem mem_foldl_classListAdd_of_mem (l : List String) (c : String)
    (h : c ∈ l) : ∀ init, c ∈ l.foldl classListAdd init := by
  induction h with
  | head as =>
    intro init
    rw [List.foldl_cons]
    exact mem_foldl_classListAdd_of_mem_init _ _ _ (mem_classListAdd_self _ _)
  | tail b _ ih =>
    intro init
    rw [List.foldl_cons]
    exact ih _

/-- C10: a popup call on a present element and parent only ever adds
marker classes — every class already on the element (including
contradictory markers accumulated by earlier calls) is still present in
the resulting class list — and in the `yDir = below` overflow branch
with swap enabled, both "y-below" and "y-above" are added within the
single call. -/
theorem c10_class_accumulation (vp : Viewport) (o : PopupOptions)
    (el par : Elem) (res : PopupResult)
    (hel : o.element = some el) (hpar : o.parent = some par)
    (h : popup vp o = PopupOutcome.applied res) :
    (∀ c, c ∈ el.classes → c ∈ res.classes) ∧
    (o.yDir = DirectionY.below → o.swap = true →
      (((offsetsCenter vp par o.scale).top +
        (scaledBoundingClientRect el o.scale).height : ℤ) : ℚ) > vp.innerHeight →
      "y-below" ∈ res.classes ∧ "y-above" ∈ res.classes) := by
  simp only [popup, hel, hpar, PopupOutcome.applied.injEq] at h
  subst h
  constructor
  · intro c hc
    exact mem_foldl_classListAdd_of_mem_init _ _ _ hc
  · intro hy hs hoff
    have hcy : (popupY vp (offsetsCenter vp par o.scale)
        (scaledBoundingClientRect el o.scale).height o.yDir o.swap o.space).2.2 =
        ["y-below", "y-above"] := by
      rw [hy, hs]
      simp only [popupY]
      rw [if_pos hoff]
      simp
    constructor <;>
    · apply mem_foldl_classListAdd_of_mem
      rw [hcy] at *
      simp [hcy]

/-- Anchor for the below-overflow scenario: occupies y in [280, 295], so
a 40-pixel-tall popup below it overflows the 300-pixel viewport. -/
def anchorC10 : Elem :=
  { rect := { left := 100, top := 280, right := 150, bottom := 295
              width := 50, height := 15, x := 100, y := 280 } }

/-- Element with a pre-existing class, for the class-accumulation
scenario (geometry of the width-50, height-40 popup element). -/
def elemC10 : Elem :=
  { rect := elemC1.rect, classes := ["existing"] }

/-- Options for the below-overflow scenario with swap enabled. -/
def optsC10 : PopupOptions :=
  { element := some elemC10, parent := some anchorC10
    xDir := .between, yDir := .below, scale := 1, swap := true, space := 8 }

/-- The result computed by `popup` in the below-overflow scenario. -/
def resC10 : PopupResult :=
  { patch := { left := some (.px 125), bottom := some (.px 20)
               marginBottom := some (.px 8)
               transform := some (.neg50, .t0) }
    classes := ["existing", "x-between", "y-below", "y-above"] }

/-- C10 witness: in the below-overflow scenario the pre-existing class
survives and both "y-below" and "y-above" are added in the single call. -/
theorem c10_class_accumulation_witness :
    "existing" ∈ resC10.classes ∧
    "y-below" ∈ resC10.classes ∧ "y-above" ∈ resC10.classes := by
  have h := c10_class_accumulation vpMain optsC10 elemC10 anchorC10 resC10
    rfl rfl
    (by
      norm_num [popup, popupX, popupY, offsetsCenter, viewportOffsets,
        scaleRect, scaledBoundingClientRect, jsRound, classListAdd, vpMain,
        optsC10, anchorC10, elemC10, elemC1, resC10]
      all_goals decide)
  have hoff : (((offsetsCenter vpMain anchorC10 optsC10.scale).top +
      (scaledBoundingClientRect elemC10 optsC10.scale).height : ℤ) : ℚ) >
      vpMain.innerHeight := by
    norm_num [offsetsCenter, viewportOffsets, scaleRect,
      scaledBoundingClientRect, jsRound, vpMain, optsC10, anchorC10, elemC10,
      elemC1]
  exact ⟨h.1 ("existing") (by simp [elemC10]), (h.2 rfl rfl hoff).1,
    (h.2 rfl rfl hoff).2⟩

end BrowserUtils
